import Mathlib

/-!
Verification of the truenas_api Go client (package `truenas_api`,
file `truenas_api/truenas_api.go`) against its natural-language
specification.

The development shallowly embeds the client's data model and the
operations of the Jobs tracker, the pending-call registry, the dispatch
loop's message handling, `Call`'s timeout path, `CallWithJob`, `Close`
and `Login` as executable Lean functions, and proves (or refutes)
properties of them.

Modelling conventions:
* Go `interface{}` values decoded from JSON (`map[string]interface{}`,
  `float64`, `string`, ...) are modelled by the `GoVal` inductive;
  JSON numbers (Go `float64`) are carried as `Rat`, which is faithful
  for every operation the client performs on them (storing, comparing
  type tags, and converting to `int64` by truncation).
* Go channels are modelled by `GoChan`: a capacity, a buffer and a
  closed flag.  A send on a closed channel panics; a send with a ready
  receiver hands the value off; a send with free buffer space succeeds;
  otherwise it blocks.  `close` of a closed channel panics.
* Go maps are association lists with insert-or-replace update.
* Panics and blocked sends are surfaced as explicit outcome
  constructors so theorems can talk about them.
-/

set_option autoImplicit false

namespace TruenasApi

/-- A dynamically-typed Go value as produced by `json.Unmarshal` into
`interface{}`: `nil`, `bool`, `float64` (as `Rat`), `string`, `[]interface{}`,
or `map[string]interface{}` (as an association list). -/
inductive GoVal where
  | null
  | boolean (b : Bool)
  | num (n : Rat)
  | str (s : String)
  | arr (elems : List GoVal)
  | obj (fields : List (String × GoVal))

/-- Lookup of `m[k]` on a decoded JSON object; `none` both when the key is
absent and when the value is not an object (Go would yield the zero value
with `ok = false`, or panic on an unchecked assertion, at the use site). -/
def fieldLookup : List (String × GoVal) → String → Option GoVal
  | [], _ => none
  | (k', v) :: rest, k => if k = k' then some v else fieldLookup rest k

/-- `v["k"]` on a `GoVal`: defined only for objects. -/
def GoVal.get : GoVal → String → Option GoVal
  | .obj fields, k => fieldLookup fields k
  | _, _ => none

/-- The comma-ok string assertion `m[k].(string)`: Go's zero value `""`
when the key is absent or the value is not a string. -/
def GoVal.getString (v : GoVal) (k : String) : String :=
  match v.get k with
  | some (.str s) => s
  | _ => ""

/-- The comma-ok float64 assertion `m[k].(float64)`: Go's zero value `0`
when the key is absent or the value is not a number. -/
def GoVal.getNum (v : GoVal) (k : String) : Rat :=
  match v.get k with
  | some (.num n) => n
  | _ => 0

/-- The unchecked assertion `m[k].(map[string]interface{})`: `some` of the
object on success, `none` where Go panics (key absent or wrong type). -/
def GoVal.getObj (v : GoVal) (k : String) : Option GoVal :=
  match v.get k with
  | some (.obj fields) => some (.obj fields)
  | _ => none

/-- Go's `int64(f)` / `int(f)` conversion from `float64`: truncation
toward zero. -/
def goTruncInt (q : Rat) : Int :=
  if 0 ≤ q then q.floor else q.ceil

/-- A Go channel of element type `α`: capacity fixed by `make`, current
buffer contents, and whether `close` has been called. -/
structure GoChan (α : Type) where
  capacity : Nat
  buffer : List α
  closed : Bool

/-- Result of a channel send. -/
inductive SendRes (α : Type) where
  /-- The send completed; the channel is in the given state. -/
  | sent (c : GoChan α)
  /-- The send blocks forever (no receiver, no buffer space). -/
  | blockedSend
  /-- The send panicked (channel closed). -/
  | panickedSend

/-- `ch <- x`.  `receiverReady` says whether some goroutine is currently
blocked receiving on the channel (in which case the value is handed off
without buffering). -/
def GoChan.send {α : Type} (c : GoChan α) (x : α) (receiverReady : Bool) :
    SendRes α :=
  if c.closed then .panickedSend
  else if receiverReady then .sent c
  else if c.buffer.length < c.capacity then
    .sent { c with buffer := c.buffer ++ [x] }
  else .blockedSend

/-- Result of `close(ch)`. -/
inductive CloseRes (α : Type) where
  | closedOk (c : GoChan α)
  | panickedClose

/-- `close(ch)`: panics when the channel is already closed. -/
def GoChan.closeCh {α : Type} (c : GoChan α) : CloseRes α :=
  if c.closed then .panickedClose
  else .closedOk { c with closed := true }

/-- Insert-or-replace `m[k] = v` on a Go map modelled as an association
list. -/
def mapInsert {β : Type} : List (Int × β) → Int → β → List (Int × β)
  | [], k, v => [(k, v)]
  | (k', v') :: rest, k, v =>
    if k' = k then (k, v) :: rest else (k', v') :: mapInsert rest k v

/-- `delete(m, k)` on a Go map modelled as an association list. -/
def mapErase {β : Type} : List (Int × β) → Int → List (Int × β)
  | [], _ => []
  | (k', v) :: rest, k =>
    if k' = k then mapErase rest k else (k', v) :: mapErase rest k

/-- `m[k]` with the usual comma-ok reading. -/
def mapLookup {β : Type} : List (Int × β) → Int → Option β
  | [], _ => none
  | (k', v) :: rest, k => if k = k' then some v else mapLookup rest k

/-- The `Job` struct.  The user `Callback` closure is modelled by the flag
`hasCallback`; its invocations are recorded by the dispatch-loop model as
explicit `(progress, state, description)` events. -/
structure Job where
  ID : Int
  Method : String
  State : String
  Result : GoVal
  Progress : Rat
  Finished : Bool
  ProgressCh : GoChan Rat
  DoneCh : GoChan String
  hasCallback : Bool

/-- The `Jobs` manager: the `jobs` map and the `ownedJobIDs` set
(a `map[int64]bool` in which membership is what matters). -/
structure Jobs where
  jobs : List (Int × Job)
  ownedJobIDs : List Int

/-- `NewJobs`: empty maps. -/
def emptyJobs : Jobs := { jobs := [], ownedJobIDs := [] }

/-- `Jobs.AddOwnedJob`: mark a job ID as started by this client. -/
def Jobs.AddOwnedJob (j : Jobs) (jobID : Int) : Jobs :=
  { j with ownedJobIDs :=
      if jobID ∈ j.ownedJobIDs then j.ownedJobIDs
      else j.ownedJobIDs ++ [jobID] }

/-- `Jobs.IsOwnedJob`: membership test on `ownedJobIDs`. -/
def Jobs.IsOwnedJob (j : Jobs) (jobID : Int) : Bool :=
  decide (jobID ∈ j.ownedJobIDs)

/-- `Jobs.AddJob`: create a Job in state `"PENDING"` with unbuffered
`ProgressCh` and `DoneCh` channels (`make(chan float64)`,
`make(chan string)`), store it in the `jobs` map and return it.
The returned `Job` and the map entry alias the same record in Go
(pointer); the model keeps them equal. -/
def Jobs.AddJob (j : Jobs) (jobID : Int) (method : String) : Jobs × Job :=
  let job : Job :=
    { ID := jobID
      Method := method
      State := "PENDING"
      Result := GoVal.null
      Progress := 0
      Finished := false
      ProgressCh := { capacity := 0, buffer := [], closed := false }
      DoneCh := { capacity := 0, buffer := [], closed := false }
      hasCallback := false }
  ({ j with jobs := mapInsert j.jobs jobID job }, job)

/-- Outcome of `Jobs.UpdateJobState`.  The carried `Jobs` value is the
tracker state at the moment of return, block or panic (Go mutates the
record in place before the channel operations run). -/
inductive UpdRes where
  | okUpd (j : Jobs)
  | blockedUpd (j : Jobs)
  | panickedUpd (j : Jobs)

/-- `Jobs.UpdateJobState`: look the job up (absent ⇒ silently return);
unconditionally overwrite `State` and `Progress`; when the new state is
`"SUCCESS"` or `"FAILED"`, additionally set `Finished` and `Result`, send
`err` on `DoneCh` (an unbuffered blocking send), then close `ProgressCh`
and `DoneCh`.  `receiverReady` says whether a goroutine is blocked
receiving on `DoneCh`. -/
def Jobs.UpdateJobState (j : Jobs) (jobID : Int) (state : String)
    (progress : Rat) (result : GoVal) (err : String)
    (receiverReady : Bool) : UpdRes :=
  match mapLookup j.jobs jobID with
  | none => .okUpd j
  | some job =>
    let job1 := { job with State := state, Progress := progress }
    if state = "SUCCESS" ∨ state = "FAILED" then
      let job2 := { job1 with Finished := true, Result := result }
      match job2.DoneCh.send err receiverReady with
      | .panickedSend =>
        .panickedUpd { j with jobs := mapInsert j.jobs jobID job2 }
      | .blockedSend =>
        .blockedUpd { j with jobs := mapInsert j.jobs jobID job2 }
      | .sent dc =>
        let job3 := { job2 with DoneCh := dc }
        match job3.ProgressCh.closeCh with
        | .panickedClose =>
          .panickedUpd { j with jobs := mapInsert j.jobs jobID job3 }
        | .closedOk pc =>
          let job4 := { job3 with ProgressCh := pc }
          match job4.DoneCh.closeCh with
          | .panickedClose =>
            .panickedUpd { j with jobs := mapInsert j.jobs jobID job4 }
          | .closedOk dc2 =>
            let job5 := { job4 with DoneCh := dc2 }
            .okUpd { j with jobs := mapInsert j.jobs jobID job5 }
    else
      .okUpd { j with jobs := mapInsert j.jobs jobID job1 }

/-- The `Client` struct.  The websocket transport is abstracted to the
one bit the claims need (`connClosed`); `url`, `mu` and `notifyChan`
play no role in any claim.  `pending` maps call IDs to their buffered
(capacity 1) response channels. -/
structure Client where
  isClosed : Bool
  callID : Int
  pending : List (Int × GoChan GoVal)
  closeChan : GoChan Unit
  jobs : Jobs
  connClosed : Bool

/-- A freshly dialled client (`NewClient`): open connection, zero call
counter, empty pending map, open unbuffered `closeChan`, empty Jobs. -/
def freshClient : Client :=
  { isClosed := false
    callID := 0
    pending := []
    closeChan := { capacity := 0, buffer := [], closed := false }
    jobs := emptyJobs
    connClosed := false }

/-- Leaf fields extracted inside the owned-job branch of `listen`, all
with comma-ok assertions that degrade to Go zero values:
`description`, `percent`, `state`, `result`, `error`. -/
structure LeafFields where
  percent : Rat
  state : String
  description : String
  result : String
  errField : String

/-- From `listen`: `description, _ := progress["description"].(string)`,
`percent, _ := progress["percent"].(float64)`,
`state, _ := fields["state"].(string)`,
`result, _ := fields["result"].(string)`,
`errors, _ := fields["error"].(string)`. -/
def extractLeafFields (fields progress : GoVal) : LeafFields :=
  { percent := progress.getNum "percent"
    state := fields.getString "state"
    description := progress.getString "description"
    result := fields.getString "result"
    errField := fields.getString "error" }

/-- Outcome of the dispatch loop handling one parsed message through the
`collection_update` branch of `listen`. -/
inductive CUOutcome where
  /-- `response["method"]` is absent, not a string, or not
  `"collection_update"`: the branch is not taken. -/
  | notJobUpdate
  /-- An unchecked type assertion failed: the goroutine panics with the
  tracker in the given state. -/
  | panicked (j : Jobs)
  /-- The completion-signal send inside `UpdateJobState` blocked the
  loop with the tracker in the given state. -/
  | blocked (j : Jobs)
  /-- The branch completed; the tracker is in the given state and the
  listed `(percent, state, description)` callback invocations occurred. -/
  | handled (j : Jobs) (callbacks : List (Rat × String × String))

/-- The `collection_update` branch of `listen`, applied to one parsed
message.  Mirrors the source order: unchecked assertions on `params`,
`params["id"]` and `params["fields"]` first, then the `IsOwnedJob`
guard, then the unchecked assertion on `fields["progress"]`, the
comma-ok leaf extractions, `UpdateJobState`, and finally the callback
invocation when the job is present with a non-nil callback. -/
def handleCollectionUpdate (js : Jobs) (response : GoVal)
    (receiverReady : Bool) : CUOutcome :=
  match response.get "method" with
  | some (.str m) =>
    if m = "collection_update" then
      match response.getObj "params" with
      | none => .panicked js
      | some ps =>
        match ps.get "id" with
        | some (.num n) =>
          let jobID := goTruncInt n
          match ps.getObj "fields" with
          | none => .panicked js
          | some fields =>
            if js.IsOwnedJob jobID then
              match fields.getObj "progress" with
              | none => .panicked js
              | some progress =>
                let lf := extractLeafFields fields progress
                match js.UpdateJobState jobID lf.state lf.percent
                    (GoVal.str lf.result) lf.errField receiverReady with
                | .panickedUpd j' => .panicked j'
                | .blockedUpd j' => .blocked j'
                | .okUpd j' =>
                  match mapLookup j'.jobs jobID with
                  | some job =>
                    if job.hasCallback then
                      .handled j' [(lf.percent, lf.state, lf.description)]
                    else .handled j' []
                  | none => .handled j' []
            else .handled js []
        | _ => .panicked js
    else .notJobUpdate
  | _ => .notJobUpdate

/-- Outcome of the response-delivery tail of `listen`
(`if id, ok := response["id"].(float64); ok { ... }`). -/
inductive DeliverRes where
  /-- `response["id"]` absent or not a number: branch not taken. -/
  | notResponse (p : List (Int × GoChan GoVal))
  /-- No pending call with this ID: nothing happens. -/
  | noEntry (p : List (Int × GoChan GoVal))
  /-- The message was sent into the pending call's channel. -/
  | delivered (p : List (Int × GoChan GoVal))
  /-- The channel send blocked the dispatch loop. -/
  | blockedDeliver (p : List (Int × GoChan GoVal))
  /-- The channel send panicked. -/
  | panickedDeliver (p : List (Int × GoChan GoVal))

/-- The response-delivery tail of `listen`: extract `response["id"]`
with a comma-ok float64 assertion, convert with `int(id)`, and send the
raw `message` into the matching pending channel when one exists. -/
def deliverResponse (pending : List (Int × GoChan GoVal))
    (response message : GoVal) (receiverReady : Bool) : DeliverRes :=
  match response.get "id" with
  | some (.num n) =>
    let callID := goTruncInt n
    match mapLookup pending callID with
    | some ch =>
      match ch.send message receiverReady with
      | .sent ch' => .delivered (mapInsert pending callID ch')
      | .blockedSend => .blockedDeliver pending
      | .panickedSend => .panickedDeliver pending
    | none => .noEntry pending
  | _ => .notResponse pending

/-- `time.Second` in nanoseconds (`time.Duration` is an `int64` count of
nanoseconds). -/
def nanosPerSecond : Int := 1000000000

/-- Reduce an unbounded integer to Go's `int64` two's-complement range
`[-2^63, 2^63)`, as int64 arithmetic wraps on overflow. -/
def int64Wrap (x : Int) : Int := (x + 2 ^ 63) % 2 ^ 64 - 2 ^ 63

/-- Result of a `Call` that never receives a matching response. -/
structure CallTimeoutRun where
  waitedNanos : Int
  errMsg : String
  client : Client

/-- `Call(method, timeout, params)` on the path where no matching
response is ever delivered: allocate `callID` by pre-increment, register
a fresh capacity-1 channel in `pending`, send the request, wait on
`time.After(timeout * time.Second)` — the `time.Duration` (int64)
argument multiplied by `10^9` with int64 wrap-around on overflow, so an
idiomatic argument such as `10*time.Second` wraps to a negative
duration and the timer fires immediately — return the error
`"call timed out"`, and run the deferred `delete(c.pending, callID)`. -/
def Client.callNoResponse (c : Client) (timeout : Int) : CallTimeoutRun :=
  let id := c.callID + 1
  let pending1 :=
    mapInsert c.pending id { capacity := 1, buffer := [], closed := false }
  let waited := int64Wrap (timeout * nanosPerSecond)
  let pending2 := mapErase pending1 id
  { waitedNanos := waited
    errMsg := "call timed out"
    client := { c with callID := id, pending := pending2 } }

/-- Does `v` hold a number?  (`_, ok := v.(float64)`.) -/
def isNumVal : Option GoVal → Bool
  | some (.num _) => true
  | _ => false

/-- `CallWithJob(method, params, callback)` after its inner `Call`
returned the raw envelope `res`: parse it as an object, fail on an
`error` field (`"API error: %v"`, the formatted value elided), require
`response["result"].(float64)` (else
`"unexpected response format for job"`), then `AddJob`, `AddOwnedJob`
and `job.Callback = callback` (the map entry and the returned record
alias one Go pointer, so both carry the callback).  The client state is
returned in every case so error paths can be seen to leave it
untouched. -/
def Client.CallWithJob (c : Client) (method : String) (res : GoVal) :
    Client × Except String Job :=
  match res with
  | .obj fl =>
    match (GoVal.obj fl).get "error" with
    | some _ => (c, .error "API error")
    | none =>
      match (GoVal.obj fl).get "result" with
      | some (.num n) =>
        let jobID := goTruncInt n
        let added := c.jobs.AddJob jobID method
        let js2 := added.1.AddOwnedJob jobID
        let job1 := { added.2 with hasCallback := true }
        let js3 := { js2 with jobs := mapInsert js2.jobs jobID job1 }
        ({ c with jobs := js3 }, .ok job1)
      | _ => (c, .error "unexpected response format for job")
  | _ => (c, .error "failed to parse response")

/-- Outcome of one `Close` invocation. -/
inductive CloseOutcome where
  /-- `Close` returned.  `returnedNil` is whether the returned error is
  `nil` (the transport write and close are modelled as succeeding);
  `didShutdown` is whether this invocation performed the shutdown
  sequence (set `isClosed`, close `closeChan`, write the close message,
  close the connection). -/
  | ret (c : Client) (returnedNil : Bool) (didShutdown : Bool)
  /-- `close(c.closeChan)` panicked. -/
  | panickedShutdown

/-- `Close`: under the mutex, return `nil` at once when `isClosed` is
already set; otherwise set it, `close(c.closeChan)`, send the websocket
close message and close the connection. -/
def Client.Close (c : Client) : CloseOutcome :=
  if c.isClosed then .ret c true false
  else
    match c.closeChan.closeCh with
    | .panickedClose => .panickedShutdown
    | .closedOk ch =>
      .ret { c with isClosed := true, closeChan := ch, connClosed := true }
        true true

/-- `n` successive `Close` invocations, recording for each whether it
returned `nil` and whether it performed the shutdown; `none` if any
invocation panicked. -/
def closeN : Client → Nat → Option (Client × List (Bool × Bool))
  | c, 0 => some (c, [])
  | c, n + 1 =>
    match c.Close with
    | .panickedShutdown => none
    | .ret c' rn ds =>
      match closeN c' n with
      | none => none
      | some (cf, l) => some (cf, (rn, ds) :: l)

/-- `Login(username, password, apiKey)`, restricted to the part the
claim concerns: the selection of the single RPC call to issue.  `ok`
carries the `(method, params)` of that one call; `error` is the case
where no call is issued at all. -/
def Login (username password apiKey : String) :
    Except String (String × List GoVal) :=
  if apiKey ≠ "" then
    .ok ("auth.login_with_api_key", [GoVal.str apiKey])
  else if username ≠ "" ∧ password ≠ "" then
    .ok ("auth.login", [GoVal.str username, GoVal.str password])
  else
    .error "either username/password or API key must be provided"

/-- Replace the entry for `k` in the tracker's `jobs` map
(Go's `j.jobs[k] = job` through the shared pointer). -/
def jsWithJob (js : Jobs) (k : Int) (job : Job) : Jobs :=
  { js with jobs := mapInsert js.jobs k job }

/-- Discriminator for `UpdRes.blockedUpd`. -/
def UpdRes.isBlocked : UpdRes → Bool
  | .blockedUpd _ => true
  | _ => false

/-- Discriminator for `UpdRes.panickedUpd`. -/
def UpdRes.isPanicked : UpdRes → Bool
  | .panickedUpd _ => true
  | _ => false

/-- Discriminator for `CUOutcome.handled`. -/
def CUOutcome.isHandled : CUOutcome → Bool
  | .handled _ _ => true
  | _ => false

/-- The tracker state produced by the code itself after a job's first
terminal update: job 7 added by `AddJob`, then updated to `"SUCCESS"`
with a listener receiving on `DoneCh`.  Its record has `Finished = true`
and both channels closed. -/
def sampleFinishedJobs : Jobs :=
  match (emptyJobs.AddJob 7 "app.upgrade").1.UpdateJobState 7 "SUCCESS" 100
      GoVal.null "" true with
  | .okUpd j => j
  | .blockedUpd j => j
  | .panickedUpd j => j

/-- The job record stored under ID 7 in `sampleFinishedJobs`. -/
def sampleFinishedJob : Job :=
  match mapLookup sampleFinishedJobs.jobs 7 with
  | some j => j
  | none => (emptyJobs.AddJob 7 "app.upgrade").2

/-- The atomic steps of `Call` in source order: `c.mu.Lock()`;
`c.callID++`; `c.pending[callID] = responseChan`; `c.mu.Unlock()`;
`c.conn.WriteJSON(request)` (split into its start and its completion, so
that two overlapping writes can be observed); the final select on the
response channel and the timer. -/
inductive CallStep where
  | lockMu
  | incrementID
  | registerPending
  | unlockMu
  | writeBegin
  | writeEnd
  | waitResponse

/-- The step sequence of one `Call` invocation as laid out in the
source: the mutex is released *before* `WriteJSON` runs. -/
def callSteps : List CallStep :=
  [.lockMu, .incrementID, .registerPending, .unlockMu,
   .writeBegin, .writeEnd, .waitResponse]

/-- Two threads each executing `callSteps` on one shared `Client`:
a program counter per thread and the holder of `c.mu`. -/
structure TwoCallConfig where
  pc0 : Nat
  pc1 : Nat
  muHolder : Option Bool

/-- Both threads at the start, mutex free. -/
def initialTwoCall : TwoCallConfig :=
  { pc0 := 0, pc1 := 0, muHolder := none }

/-- One atomic step of thread `t` (`false` or `true`): `lockMu` needs
the mutex free, `unlockMu` needs this thread to hold it, every other
step is always enabled; `none` when the thread cannot step. -/
def stepThread (cfg : TwoCallConfig) (t : Bool) : Option TwoCallConfig :=
  let pc := if t then cfg.pc1 else cfg.pc0
  match callSteps.get? pc with
  | none => none
  | some op =>
    let adv := fun (c : TwoCallConfig) =>
      if t then { c with pc1 := pc + 1 } else { c with pc0 := pc + 1 }
    match op with
    | .lockMu =>
      match cfg.muHolder with
      | none => some (adv { cfg with muHolder := some t })
      | some _ => none
    | .unlockMu =>
      if cfg.muHolder = some t then some (adv { cfg with muHolder := none })
      else none
    | _ => some (adv cfg)

/-- Run a schedule (a list of thread choices); `none` when some chosen
step is not enabled, so a `some` result is a genuinely executable
interleaving under the mutex semantics. -/
def runSched : List Bool → TwoCallConfig → Option TwoCallConfig
  | [], cfg => some cfg
  | t :: rest, cfg =>
    match stepThread cfg t with
    | some cfg' => runSched rest cfg'
    | none => none

/-- A thread whose program counter sits between `writeBegin` and
`writeEnd` has a transport write in flight. -/
def writeInFlight (pc : Nat) : Bool := pc == 5

/-- Both threads have a transport write in flight at once. -/
def bothWriting (cfg : TwoCallConfig) : Bool :=
  writeInFlight cfg.pc0 && writeInFlight cfg.pc1

/-- Thread 0 runs through its `writeBegin`, then thread 1 does the
same. -/
def concurrentWriteSchedule : List Bool :=
  [false, false, false, false, false, true, true, true, true, true]

/-! ## Map lemmas -/

theorem mapLookup_mapErase_self {β : Type} (l : List (Int × β)) (k : Int) :
    mapLookup (mapErase l k) k = none := by
  induction l with
  | nil => rfl
  | cons hd tl ih =>
    obtain ⟨k0, v0⟩ := hd
    by_cases h : k0 = k
    · simpa [mapErase, h] using ih
    · simp [mapErase, mapLookup, h, Ne.symm h, ih]

theorem mapLookup_mapErase_ne {β : Type} (l : List (Int × β)) (k k' : Int)
    (h : k' ≠ k) : mapLookup (mapErase l k) k' = mapLookup l k' := by
  induction l with
  | nil => rfl
  | cons hd tl ih =>
    obtain ⟨k0, v0⟩ := hd
    by_cases h0 : k0 = k
    · subst h0
      simp [mapErase, mapLookup, h, ih]
    · by_cases h1 : k' = k0 <;> simp [mapErase, mapLookup, h0, h1, ih]

theorem mapLookup_mapInsert_self {β : Type} (l : List (Int × β)) (k : Int)
    (v : β) : mapLookup (mapInsert l k v) k = some v := by
  induction l with
  | nil => simp [mapInsert, mapLookup]
  | cons hd tl ih =>
    obtain ⟨k0, v0⟩ := hd
    by_cases h : k0 = k
    · simp [mapInsert, mapLookup, h]
    · simp [mapInsert, mapLookup, h, Ne.symm h, ih]

theorem mapLookup_mapInsert_ne {β : Type} (l : List (Int × β)) (k k' : Int)
    (v : β) (h : k' ≠ k) :
    mapLookup (mapInsert l k v) k' = mapLookup l k' := by
  induction l with
  | nil => simp [mapInsert, mapLookup, h]
  | cons hd tl ih =>
    obtain ⟨k0, v0⟩ := hd
    by_cases h0 : k0 = k
    · subst h0
      simp [mapInsert, mapLookup, h]
    · by_cases h1 : k' = k0 <;> simp [mapInsert, mapLookup, h0, h1, ih]

theorem IsOwnedJob_AddOwnedJob (j : Jobs) (k : Int) :
    (j.AddOwnedJob k).IsOwnedJob k = true := by
  by_cases h : k ∈ j.ownedJobIDs <;>
    simp [Jobs.AddOwnedJob, Jobs.IsOwnedJob, h]

/-! ## C1 -/

/-- C1, counterexample: with `timeout = 2` (a `time.Duration` argument of
2 nanoseconds) and no response, `Call` waits `2 * time.Second` = 2·10⁹
nanoseconds, not the 2-nanosecond timeout argument: the wait is a
rescaling of the caller-supplied duration.  Worse, at the idiomatic
argument `10*time.Second` (10¹⁰ ns) the int64 product `timeout *
time.Second` overflows to a negative duration, so `time.After` fires
immediately and the call waits essentially no time at all. -/
theorem C1_counterexample :
    (freshClient.callNoResponse 2).waitedNanos ≠ 2 ∧
    (freshClient.callNoResponse 2).waitedNanos = 2 * nanosPerSecond ∧
    (freshClient.callNoResponse (10 * nanosPerSecond)).waitedNanos < 0 := by
  refine ⟨by decide, by decide, by decide⟩

/-- C1, amended: a `Call` that never receives a matching response fails
with the distinct error `"call timed out"` and its pending entry is
removed while every other entry is untouched — but the duration waited
is the int64 product `timeout * time.Second` (the argument rescaled by
10⁹ with two's-complement wrap-around, so it reads a small argument as
a count of seconds and wraps an idiomatic `Duration` argument of about
9.3 s or more to a negative duration that fires immediately), not the
`time.Duration` argument itself. -/
theorem C1_call_timeout_behaviour (c : Client) (timeout : Int) :
    (c.callNoResponse timeout).errMsg = "call timed out" ∧
    (c.callNoResponse timeout).waitedNanos =
      int64Wrap (timeout * nanosPerSecond) ∧
    mapLookup (c.callNoResponse timeout).client.pending (c.callID + 1) =
      none ∧
    ∀ k : Int, k ≠ c.callID + 1 →
      mapLookup (c.callNoResponse timeout).client.pending k =
        mapLookup c.pending k := by
  refine ⟨rfl, rfl, ?_, ?_⟩
  · simp [Client.callNoResponse, mapLookup_mapErase_self]
  · intro k hk
    simp only [Client.callNoResponse]
    rw [mapLookup_mapErase_ne _ _ _ hk, mapLookup_mapInsert_ne _ _ _ _ hk]

/-- C1, witness for the amended theorem at a concrete input. -/
theorem C1_witness :
    (99 : Int) ≠ freshClient.callID + 1 ∧
    mapLookup (freshClient.callNoResponse 5).client.pending 99 =
      mapLookup freshClient.pending 99 :=
  ⟨by decide, (C1_call_timeout_behaviour freshClient 5).2.2.2 99 (by decide)⟩

/-! ## C2 -/

/-- C2, counterexample: job 7 of `sampleFinishedJobs` is already in the
terminal state `"SUCCESS"` (finished, completion signal fired), yet a
subsequent `UpdateJobState` to `"RUNNING"` overwrites its `State`: the
claim that terminal jobs accept no further field mutation is false. -/
theorem C2_counterexample :
    (match Jobs.UpdateJobState sampleFinishedJobs 7 "RUNNING" 50
        GoVal.null "" true with
      | .okUpd j => (mapLookup j.jobs 7).map Job.State
      | .blockedUpd _ => none
      | .panickedUpd _ => none) = some "RUNNING" ∧
    (mapLookup sampleFinishedJobs.jobs 7).map Job.State = some "SUCCESS" ∧
    "RUNNING" ≠ "SUCCESS" :=
  ⟨rfl, rfl, by decide⟩

/-- C2, amended: `UpdateJobState` never checks `Finished`.  On a job
already in a terminal configuration (finished, `DoneCh` closed), a
subsequent non-terminal update still overwrites `State` and `Progress`
(leaving `Result`, `Finished` and the channels unchanged, firing no
signal), and a subsequent terminal update overwrites `State`, `Progress`,
`Finished` and `Result` and then panics sending on the closed `DoneCh` —
so the completion signal never fires a second time, but only because the
re-fire attempt is a panic. -/
theorem C2_terminal_state_still_mutated (js : Jobs) (jobID : Int)
    (job : Job) (state : String) (progress : Rat) (result : GoVal)
    (err : String) (r : Bool)
    (hlook : mapLookup js.jobs jobID = some job)
    (_hfin : job.Finished = true)
    (hclosed : job.DoneCh.closed = true) :
    (¬(state = "SUCCESS" ∨ state = "FAILED") →
      js.UpdateJobState jobID state progress result err r =
        .okUpd (jsWithJob js jobID
          { job with State := state, Progress := progress })) ∧
    ((state = "SUCCESS" ∨ state = "FAILED") →
      js.UpdateJobState jobID state progress result err r =
        .panickedUpd (jsWithJob js jobID
          { job with State := state, Progress := progress,
                     Finished := true, Result := result })) := by
  constructor
  · intro hterm
    simp [Jobs.UpdateJobState, hlook, hterm, jsWithJob]
  · intro hterm
    simp [Jobs.UpdateJobState, hlook, hterm, GoChan.send, hclosed, jsWithJob]

/-- C2, witness: the amended theorem applied to `sampleFinishedJobs`. -/
theorem C2_witness :
    mapLookup sampleFinishedJobs.jobs 7 = some sampleFinishedJob ∧
    sampleFinishedJob.Finished = true ∧
    sampleFinishedJob.DoneCh.closed = true ∧
    Jobs.UpdateJobState sampleFinishedJobs 7 "RUNNING" 50 GoVal.null ""
        true =
      .okUpd (jsWithJob sampleFinishedJobs 7
        { sampleFinishedJob with State := "RUNNING", Progress := 50 }) :=
  ⟨rfl, rfl, rfl,
    (C2_terminal_state_still_mutated sampleFinishedJobs 7 sampleFinishedJob
      "RUNNING" 50 GoVal.null "" true rfl rfl rfl).1 (by decide)⟩

/-! ## C3 -/

/-- C3: the claim is the code's own stated intent but the code violates
it.  `AddJob` creates `DoneCh` with `make(chan string)` — capacity 0,
unbuffered — and `UpdateJobState` fires the completion signal with a
plain blocking send: a terminal update for a job whose caller is not
currently receiving on `DoneCh` blocks the Dispatch Loop, and a second
terminal update sends on the by-then-closed channel and panics. -/
theorem C3_done_channel_unbuffered :
    ((emptyJobs.AddJob 42 "app.upgrade").2).DoneCh.capacity = 0 ∧
    ((emptyJobs.AddJob 42 "app.upgrade").1.UpdateJobState 42 "SUCCESS" 100
        GoVal.null "" false).isBlocked = true ∧
    (Jobs.UpdateJobState sampleFinishedJobs 7 "SUCCESS" 100 GoVal.null ""
        true).isPanicked = true :=
  ⟨rfl, rfl, rfl⟩

/-! ## C4 -/

/-- C4, counterexample: a `collection_update` message with no `params`
object makes the dispatch loop panic (unchecked type assertion), not
degrade to defaults: the claim that such a message never aborts or
crashes the loop is false. -/
theorem C4_counterexample :
    handleCollectionUpdate emptyJobs
      (GoVal.obj [("method", GoVal.str "collection_update")]) true =
      .panicked emptyJobs :=
  rfl

/-- C4, amended: only the leaf fields (`description`, `percent`,
`state`, `result`, `error`) are read with comma-ok assertions that
degrade to Go zero values — missing `percent` → 0, missing `state` →
`""` (not `"unknown"`), missing `description` → `""` — and with the
structural fields (`params`, `id`, `fields`, `progress`) present and
well-typed and the extracted state non-terminal, the update completes
without failing; but a missing or mis-typed `params`, `id`, `fields` or
`progress` object panics the dispatch loop (see the counterexample). -/
theorem C4_leaf_fields_degrade (js : Jobs) (msg ps fields progress : GoVal)
    (r : Bool) (n : Rat)
    (hm : msg.get "method" = some (GoVal.str "collection_update"))
    (hp : msg.getObj "params" = some ps)
    (hid : ps.get "id" = some (GoVal.num n))
    (hf : ps.getObj "fields" = some fields)
    (hpr : fields.getObj "progress" = some progress)
    (hterm : ¬((extractLeafFields fields progress).state = "SUCCESS" ∨
        (extractLeafFields fields progress).state = "FAILED")) :
    (handleCollectionUpdate js msg r).isHandled = true ∧
    (progress.get "percent" = none →
      (extractLeafFields fields progress).percent = 0) ∧
    (fields.get "state" = none →
      (extractLeafFields fields progress).state = "") ∧
    (progress.get "description" = none →
      (extractLeafFields fields progress).description = "") := by
  refine ⟨?_, ?_, ?_, ?_⟩
  · simp only [handleCollectionUpdate, hm, hp, hid, hf, hpr, if_pos rfl]
    cases how : js.IsOwnedJob (goTruncInt n) with
    | false => simp [how, CUOutcome.isHandled]
    | true =>
      simp only [how, if_true]
      simp only [Jobs.UpdateJobState]
      cases hl : mapLookup js.jobs (goTruncInt n) with
      | none => simp [hl, CUOutcome.isHandled]
      | some job =>
        simp only [hl, hterm, if_false, mapLookup_mapInsert_self]
        cases hcb : job.hasCallback <;> simp [hcb, CUOutcome.isHandled]
  · intro h0
    simp [extractLeafFields, GoVal.getNum, h0]
  · intro h0
    simp [extractLeafFields, GoVal.getString, h0]
  · intro h0
    simp [extractLeafFields, GoVal.getString, h0]

/-- C4, witness for the amended theorem: an owned job's update whose
`progress` object is empty completes with percent defaulted to 0. -/
theorem C4_witness :
    (handleCollectionUpdate ((emptyJobs.AddJob 5 "app.upgrade").1.AddOwnedJob 5)
      (GoVal.obj [("method", GoVal.str "collection_update"),
        ("params", GoVal.obj [("id", GoVal.num 5),
          ("fields", GoVal.obj [("progress", GoVal.obj [])])])])
      true).isHandled = true ∧
    (extractLeafFields (GoVal.obj [("progress", GoVal.obj [])])
      (GoVal.obj [])).percent = 0 := by
  have h := C4_leaf_fields_degrade
    ((emptyJobs.AddJob 5 "app.upgrade").1.AddOwnedJob 5)
    (GoVal.obj [("method", GoVal.str "collection_update"),
      ("params", GoVal.obj [("id", GoVal.num 5),
        ("fields", GoVal.obj [("progress", GoVal.obj [])])])])
    (GoVal.obj [("id", GoVal.num 5),
      ("fields", GoVal.obj [("progress", GoVal.obj [])])])
    (GoVal.obj [("progress", GoVal.obj [])])
    (GoVal.obj []) true 5 rfl rfl rfl rfl rfl (by decide)
  exact ⟨h.1, h.2.1 rfl⟩

/-! ## C5 -/

/-- C5: a `Call` that times out deletes its own pending entry (deferred
`delete(c.pending, callID)`), and a response arriving for an ID with no
pending entry is a no-op for the dispatch loop: the registry is returned
unchanged (`noEntry`), so no other pending call is touched and no
channel send runs, let alone blocks. -/
theorem C5_late_response_discarded (pending : List (Int × GoChan GoVal))
    (resp msg : GoVal) (r : Bool) (n : Rat) (c : Client) (timeout : Int)
    (hid : resp.get "id" = some (GoVal.num n))
    (habs : mapLookup pending (goTruncInt n) = none) :
    deliverResponse pending resp msg r = .noEntry pending ∧
    mapLookup (c.callNoResponse timeout).client.pending (c.callID + 1) =
      none := by
  constructor
  · simp [deliverResponse, hid, habs]
  · simp [Client.callNoResponse, mapLookup_mapErase_self]

/-- C5, witness at a concrete late response. -/
theorem C5_witness :
    deliverResponse [] (GoVal.obj [("id", GoVal.num 3)]) (GoVal.obj [])
      false = .noEntry [] := by
  have h := C5_late_response_discarded [] (GoVal.obj [("id", GoVal.num 3)])
    (GoVal.obj []) false 3 freshClient 5 rfl rfl
  exact h.1

/-! ## C6 -/

/-- C6: a job-update notification whose job ID is not owned by this
client leaves the Job Tracker exactly as it was and invokes no
callback: the dispatch loop returns `handled js []`. -/
theorem C6_unowned_job_ignored (js : Jobs) (msg ps fields : GoVal)
    (r : Bool) (n : Rat)
    (hm : msg.get "method" = some (GoVal.str "collection_update"))
    (hp : msg.getObj "params" = some ps)
    (hid : ps.get "id" = some (GoVal.num n))
    (hf : ps.getObj "fields" = some fields)
    (hown : js.IsOwnedJob (goTruncInt n) = false) :
    handleCollectionUpdate js msg r = .handled js [] := by
  simp [handleCollectionUpdate, hm, hp, hid, hf, hown]

/-- C6, witness: a notification for never-requested job 99 on an empty
tracker. -/
theorem C6_witness :
    handleCollectionUpdate emptyJobs
      (GoVal.obj [("method", GoVal.str "collection_update"),
        ("params", GoVal.obj [("id", GoVal.num 99),
          ("fields", GoVal.obj [])])]) true =
      .handled emptyJobs [] :=
  C6_unowned_job_ignored emptyJobs
    (GoVal.obj [("method", GoVal.str "collection_update"),
      ("params", GoVal.obj [("id", GoVal.num 99),
        ("fields", GoVal.obj [])])])
    (GoVal.obj [("id", GoVal.num 99), ("fields", GoVal.obj [])])
    (GoVal.obj []) true 99 rfl rfl rfl rfl rfl

/-! ## C7 -/

/-- C7: after a successful inner `Call`, `CallWithJob` fails with
`"API error"` when the envelope carries an `error` field and with
`"unexpected response format for job"` when `result` is not a number —
in both cases the client (so the Job Tracker) is returned untouched and
no job exists, is owned, or has a callback — and when `result` is a
number `n` (and there is no `error` field), a job with ID `int64(n)`,
initial state `"PENDING"` and the supplied callback attached is stored
in the tracker, marked owned, and returned. -/
theorem C7_call_with_job (c : Client) (method : String)
    (fl : List (String × GoVal)) :
    (∀ e, (GoVal.obj fl).get "error" = some e →
      c.CallWithJob method (GoVal.obj fl) = (c, .error "API error")) ∧
    ((GoVal.obj fl).get "error" = none →
      isNumVal ((GoVal.obj fl).get "result") = false →
      c.CallWithJob method (GoVal.obj fl) =
        (c, .error "unexpected response format for job")) ∧
    (∀ n : Rat, (GoVal.obj fl).get "error" = none →
      (GoVal.obj fl).get "result" = some (GoVal.num n) →
      ∃ job,
        (c.CallWithJob method (GoVal.obj fl)).2 = Except.ok job ∧
        mapLookup (c.CallWithJob method (GoVal.obj fl)).1.jobs.jobs
          (goTruncInt n) = some job ∧
        job.State = "PENDING" ∧
        job.hasCallback = true ∧
        job.ID = goTruncInt n ∧
        (c.CallWithJob method (GoVal.obj fl)).1.jobs.IsOwnedJob
          (goTruncInt n) = true) := by
  refine ⟨?_, ?_, ?_⟩
  · intro e he
    simp [Client.CallWithJob, he]
  · intro he hres
    simp only [Client.CallWithJob, he]
    match hr : (GoVal.obj fl).get "result" with
    | none => rfl
    | some .null => rfl
    | some (.boolean b) => rfl
    | some (.num m) => rw [hr] at hres; simp [isNumVal] at hres
    | some (.str s) => rfl
    | some (.arr xs) => rfl
    | some (.obj ofl) => rfl
  · intro n he hres
    refine ⟨{ (c.jobs.AddJob (goTruncInt n) method).2 with
      hasCallback := true }, ?_, ?_, ?_, ?_, ?_, ?_⟩
    · simp [Client.CallWithJob, he, hres]
    · simp [Client.CallWithJob, he, hres, Jobs.AddOwnedJob,
        mapLookup_mapInsert_self]
    · simp [Jobs.AddJob]
    · rfl
    · simp [Jobs.AddJob]
    · simp only [Client.CallWithJob, he, hres]
      exact IsOwnedJob_AddOwnedJob _ _

/-- C7, witness: a numeric result `42` yields an owned `"PENDING"` job
with a callback. -/
theorem C7_witness :
    ∃ job,
      (freshClient.CallWithJob "app.upgrade"
        (GoVal.obj [("result", GoVal.num 42)])).2 = Except.ok job ∧
      mapLookup (freshClient.CallWithJob "app.upgrade"
        (GoVal.obj [("result", GoVal.num 42)])).1.jobs.jobs
        (goTruncInt 42) = some job ∧
      job.State = "PENDING" ∧
      job.hasCallback = true ∧
      job.ID = goTruncInt 42 ∧
      (freshClient.CallWithJob "app.upgrade"
        (GoVal.obj [("result", GoVal.num 42)])).1.jobs.IsOwnedJob
        (goTruncInt 42) = true :=
  (C7_call_with_job freshClient "app.upgrade"
    [("result", GoVal.num 42)]).2.2 42 rfl rfl

/-! ## C8 -/

theorem closeN_closed (m : Nat) (c : Client) (h : c.isClosed = true) :
    closeN c m = some (c, List.replicate m (true, false)) := by
  induction m with
  | zero => simp [closeN]
  | succ k ih => simp [closeN, Client.Close, h, ih, List.replicate]

/-- C8: `Close` is idempotent.  Starting from an open client, a run of
`n ≥ 1` `Close` invocations performs the shutdown sequence (signal
`closeChan`, then disconnect) exactly once — on the first invocation —
and every later invocation returns `nil` without re-performing any
shutdown step; no invocation panics (the run is `some`) and the model
has no blocking path in `Close`. -/
theorem C8_close_idempotent (c : Client) (n : Nat)
    (h1 : c.isClosed = false) (h2 : c.closeChan.closed = false)
    (hn : 1 ≤ n) :
    closeN c n = some
      ({ c with isClosed := true,
                closeChan := { c.closeChan with closed := true },
                connClosed := true },
       (true, true) :: List.replicate (n - 1) (true, false)) := by
  obtain ⟨k, rfl⟩ : ∃ k, n = k + 1 := ⟨n - 1, by omega⟩
  simp [closeN, Client.Close, h1, h2, GoChan.closeCh, closeN_closed]

/-- C8, witness: three successive `Close` calls on a fresh client. -/
theorem C8_witness :
    closeN freshClient 3 = some
      ({ freshClient with
          isClosed := true,
          closeChan := { freshClient.closeChan with closed := true },
          connClosed := true },
       (true, true) :: List.replicate 2 (true, false)) :=
  C8_close_idempotent freshClient 3 rfl rfl (by decide)

/-! ## C9 -/

/-- C9: the claim is the code's own stated requirement (the transport
does not support concurrent writers) but the code violates it:
`Call` releases `c.mu` before `conn.WriteJSON`, so under the mutex
semantics there is a valid interleaving of two concurrent `Call`
invocations — run thread 0 up to and through `writeBegin`, then thread
1 the same — in which both transport writes are in flight at once. -/
theorem C9_writes_not_serialized :
    (runSched concurrentWriteSchedule initialTwoCall).map bothWriting =
      some true := by
  decide

/-! ## C10 -/

/-- C10: `Login` gives the API key precedence — whenever `apiKey` is
non-empty (even with a non-empty username and password) the one call
issued is `auth.login_with_api_key` with params `[apiKey]` — and when
`apiKey` is empty and the username or the password is empty, `Login`
returns an error without issuing any call. -/
theorem C10_login_selection (username password apiKey : String) :
    (apiKey ≠ "" →
      Login username password apiKey =
        .ok ("auth.login_with_api_key", [GoVal.str apiKey])) ∧
    (apiKey = "" → (username = "" ∨ password = "") →
      Login username password apiKey =
        .error "either username/password or API key must be provided") := by
  constructor
  · intro hk
    simp [Login, hk]
  · intro hk hup
    rcases hup with hu | hp
    · simp [Login, hk, hu]
    · simp [Login, hk, hp]

/-- C10, witness: the API key wins over a supplied username/password,
and empty credentials yield the error with no call. -/
theorem C10_witness :
    Login "root" "secret" "KEY" =
      .ok ("auth.login_with_api_key", [GoVal.str "KEY"]) ∧
    Login "root" "" "" =
      .error "either username/password or API key must be provided" :=
  ⟨(C10_login_selection "root" "secret" "KEY").1 (by decide),
   (C10_login_selection "root" "" "").2 rfl (Or.inr rfl)⟩

end TruenasApi
